import Mathlib

/-!
# rpminfo

A shallow embedding of `src/rpminfo.c`, the command-line tool that prints one
metadata field of an RPM package, and the properties of it that its
specification states.

Conventions of the embedding.

* A C string is a `String`: the characters before the terminating NUL, one
  `Char` standing for one C `char`.  A `char *` that may be `NULL` is an
  `Option String`.
* `stdout` and `stderr` are the texts written to them, in order.
* `exit` is modelled by the `Except` monad: `usage` never returns.
* The RPM library is a collaborator: what its calls return is a parameter
  (`Rpmlib`, `Header`), and the calls `main` makes are recorded in a trace.
-/

namespace Rpminfo

/-! ## libc -/

/-- The function `strcmp` on the characters before the terminators.  C fixes
only the sign of the result, so the result is `-1`, `0` or `1`. -/
def strcmpChars : List Char → List Char → Int
  | [], [] => 0
  | [], _ :: _ => -1
  | _ :: _, [] => 1
  | a :: as, b :: bs =>
    if a.toNat < b.toNat then -1
    else if b.toNat < a.toNat then 1
    else strcmpChars as bs

/-- The libc function `strcmp`. -/
def strcmp (a b : String) : Int := strcmpChars a.data b.data

/-- The libc function `strlen`. -/
def strlen (s : String) : Nat := s.length

/-- The text of `n` blanks. -/
def blanks (n : Nat) : String := String.mk (List.replicate n ' ')

/-- The conversion `%-17s` of `printf`: the string, then blanks up to a field
width of 17; a longer string is written whole. -/
def fmt_s_left17 (s : String) : String := s ++ blanks (17 - strlen s)

/-! ## The RPM library, as far as the program consults it -/

/-- The bit masks of `evrFlags` the program tests.  The header that declares
them is not part of the sources, so they are parameters. -/
structure Sense where
  RPMSENSE_LESS : Nat
  RPMSENSE_GREATER : Nat
  RPMSENSE_EQUAL : Nat
  RPMSENSE_RPMLIB : Nat

/-- One position of a dependency set: what `rpmdsN`, `rpmdsEVR` and
`rpmdsFlags` return there (`rpmdsEVR` may return `NULL`). -/
structure DepEntry where
  N : String
  EVR : Option String
  Flags : Nat

/-- A decoded package header, seen through the three queries the program
makes: `headerSprintf` with a format (`NULL` is `none`), the dependency set
of `RPMTAG_REQUIRENAME` and the file names of `RPMTAG_BASENAMES` (what
`rpmfiFN` returns at each position), both in iteration order. -/
structure Header where
  headerSprintf : String → Option String
  requirename : List DepEntry
  basenames : List String

/-- An open `FD_t`: what `Ferror` and `Fstrerror` say of it. -/
structure FD where
  Ferror : Bool
  Fstrerror : String

/-- The library and the file system behind it: the masks, what `Fopen`
returns for a path (`none` is `NULL`), what `Fstrerror (NULL)` returns, and
the header `rpmReadPackageFile` decodes (`none` when the return code is not
`RPMRC_OK`). -/
structure Rpmlib where
  sense : Sense
  Fopen : String → Option FD
  FstrerrorNull : String
  rpmReadPackageFile : FD → String → Option Header

/-! ## The extraction functions -/

/-- The function `generic_print_msg`: the text written to `stdout`. -/
def generic_print_msg (hdr : Header) (fmt : String) : String :=
  match hdr.headerSprintf fmt with
  | some value => value ++ "\n"
  | none => ""

/-- The function `print_arch`; the format is `%{arch}`. -/
def print_arch (hdr : Header) : String := generic_print_msg hdr "%\x7barch\x7d"

/-- The function `print_compressor`; the format is `%{payloadcompressor}`. -/
def print_compressor (hdr : Header) : String :=
  generic_print_msg hdr "%\x7bpayloadcompressor\x7d"

/-- The body of the loop of `print_dependencies` for one entry. -/
def print_dependency (S : Sense) (e : DepEntry) : String :=
  if e.Flags &&& S.RPMSENSE_RPMLIB ≠ 0 then ""
  else
    e.N ++
    (match e.EVR with
     | none => ""
     | some version =>
       if strlen version ≠ 0 then
         (if e.Flags ≠ 0 then " " else "") ++
         (if e.Flags &&& S.RPMSENSE_LESS ≠ 0 then "<" else "") ++
         (if e.Flags &&& S.RPMSENSE_GREATER ≠ 0 then ">" else "") ++
         (if S.RPMSENSE_EQUAL ≠ 0 then "=" else "") ++
         (" " ++ version)
       else "") ++
    "\n"

/-- The loop of `print_dependencies` over the positions `rpmdsNext` visits. -/
def print_dependencies_loop (S : Sense) : List DepEntry → String
  | [] => ""
  | e :: rest => print_dependency S e ++ print_dependencies_loop S rest

/-- The function `print_dependencies`. -/
def print_dependencies (S : Sense) (hdr : Header) : String :=
  print_dependencies_loop S hdr.requirename

/-- The function `print_description`; the format is `%{description}`. -/
def print_description (hdr : Header) : String :=
  generic_print_msg hdr "%\x7bdescription\x7d"

/-- The function `print_distribution`; the format is `%{distribution}`. -/
def print_distribution (hdr : Header) : String :=
  generic_print_msg hdr "%\x7bdistribution\x7d"

/-- The loop of `print_filenames` over the positions `rpmfiNext` visits. -/
def print_filenames_loop : List String → String
  | [] => ""
  | name :: rest => (name ++ "\n") ++ print_filenames_loop rest

/-- The function `print_filenames`. -/
def print_filenames (hdr : Header) : String := print_filenames_loop hdr.basenames

/-- The function `print_license`; the format is `%{license}`. -/
def print_license (hdr : Header) : String := generic_print_msg hdr "%\x7blicense\x7d"

/-- The function `print_name`; the format is `%{name}`. -/
def print_name (hdr : Header) : String := generic_print_msg hdr "%\x7bname\x7d"

/-- The function `print_release`; the format is `%{release}`. -/
def print_release (hdr : Header) : String := generic_print_msg hdr "%\x7brelease\x7d"

/-- The function `print_summary`; the format is `%{summary}`. -/
def print_summary (hdr : Header) : String := generic_print_msg hdr "%\x7bsummary\x7d"

/-- The function `print_url`; the format is `%{url}`. -/
def print_url (hdr : Header) : String := generic_print_msg hdr "%\x7burl\x7d"

/-- The function `print_version`; the format is `%{version}`. -/
def print_version (hdr : Header) : String := generic_print_msg hdr "%\x7bversion\x7d"

/-! ## The option table -/

/-- The functions the table points to. -/
inductive Fn
  | print_arch | print_compressor | print_dependencies | print_description
  | print_distribution | print_filenames | print_license | print_name
  | print_release | print_summary | print_url | print_version
  deriving DecidableEq, Repr

/-- A call through a function pointer of the table: the text written to
`stdout`. -/
def Fn.call (S : Sense) (hdr : Header) : Fn → String
  | .print_arch => Rpminfo.print_arch hdr
  | .print_compressor => Rpminfo.print_compressor hdr
  | .print_dependencies => Rpminfo.print_dependencies S hdr
  | .print_description => Rpminfo.print_description hdr
  | .print_distribution => Rpminfo.print_distribution hdr
  | .print_filenames => Rpminfo.print_filenames hdr
  | .print_license => Rpminfo.print_license hdr
  | .print_name => Rpminfo.print_name hdr
  | .print_release => Rpminfo.print_release hdr
  | .print_summary => Rpminfo.print_summary hdr
  | .print_url => Rpminfo.print_url hdr
  | .print_version => Rpminfo.print_version hdr

/-- The record `struct optinfo`; each field may be `NULL`. -/
structure Optinfo where
  name : Option String
  desc : Option String
  fn : Option Fn
  deriving DecidableEq, Repr

/-- The array `optinfo`, its terminating all-`NULL` entry included. -/
def optinfo : List Optinfo :=
  [ ⟨some "--arch",         some "architecture",         some .print_arch⟩,
    ⟨some "--compressor",   some "payload compressor",   some .print_compressor⟩,
    ⟨some "--dependencies", some "package dependencies", some .print_dependencies⟩,
    ⟨some "--description",  some "package description",  some .print_description⟩,
    ⟨some "--distribution", some "distribution name",    some .print_distribution⟩,
    ⟨some "--filenames",    some "list of files",        some .print_filenames⟩,
    ⟨some "--license",      some "package license",      some .print_license⟩,
    ⟨some "--name",         some "package name",         some .print_name⟩,
    ⟨some "--release",      some "release number",       some .print_release⟩,
    ⟨some "--summary",      some "summary information",  some .print_summary⟩,
    ⟨some "--url",          some "project url",          some .print_url⟩,
    ⟨some "--version",      some "package version",      some .print_version⟩,
    ⟨none,                  none,                        none⟩ ]

/-! ## Argument handling -/

/-- A call of `exit`: the status and what the program had written to
`stderr`. -/
structure Exit where
  status : Int
  err : String
  deriving DecidableEq, Repr

/-- The conversion `%s` of `printf` on a `char *`; glibc writes `(null)` for
`NULL`. -/
def fmt_s : Option String → String
  | some s => s
  | none => "(null)"

/-- One line of the loop of `usage`: the format `"  %-17s  %s\n"`. -/
def usage_line (name : String) (desc : Option String) : String :=
  "  " ++ fmt_s_left17 name ++ "  " ++ fmt_s desc ++ "\n"

/-- The loop of `usage`: it stops at the first entry whose name is `NULL`. -/
def usage_loop : List Optinfo → String
  | [] => ""
  | e :: rest =>
    match e.name with
    | none => ""
    | some name => usage_line name e.desc ++ usage_loop rest

/-- The text `usage` writes to `stderr`. -/
def usage_text (appname : String) : String :=
  "Usage: " ++ appname ++ " OPTION <file.rpm>\n\n" ++
  "Available (mutually-exclusive) options are:\n" ++
  usage_loop optinfo

/-- The function `usage`: it writes the text and calls `exit (retval)`. -/
def usage (appname : String) (retval : Int) : Exit := ⟨retval, usage_text appname⟩

/-- The loop of `parse_args`, from index `i` on, over the entries from there:
it stops at the first entry whose name is `NULL` or equal to the argument. -/
def parse_args_loop : List Optinfo → Int → String → Int → Int
  | [], _, _, opt => opt
  | e :: rest, i, arg, opt =>
    match e.name with
    | none => opt
    | some name =>
      if strcmp arg name = 0 then i else parse_args_loop rest (i + 1) arg opt

/-- The function `parse_args`: either `usage` exits, or `*rpmfile` and `*opt`
are returned.  `argc` is the length of `argv`. -/
def parse_args (argv : List String) : Except Exit (String × Int) :=
  if argv.length ≠ 3 then .error (usage (fmt_s argv[0]?) 1)
  else
    let opt := parse_args_loop optinfo 0 (argv.getD 1 "") (-1)
    if opt = -1 then .error (usage (fmt_s argv[0]?) 1)
    else .ok (argv.getD 2 "", opt)

/-! ## The entry point -/

/-- The flags `main` passes to `rpmtsSetVSFlags`. -/
inductive VSFlag
  | NOHDRCHK | NODIGESTS | NOSIGNATURES
  deriving DecidableEq, Repr

/-- The library calls of `main`, as they appear in the trace. -/
inductive Call
  | Fopen (path : String)
  | rpmtsCreate
  | rpmtsSetVSFlags (flags : List VSFlag)
  | rpmReadPackageFile (path : String)
  | fn (f : Fn)
  | headerFree
  | rpmtsFree
  | Fclose
  deriving DecidableEq, Repr

/-- A finished run: exit status, the texts written and the calls made. -/
structure Run where
  status : Int
  out : String
  err : String
  calls : List Call
  deriving DecidableEq, Repr

/-- The function `main`.  The result is `none` when the call through the table
would not be a call of a function (an index outside the table or a `NULL`
pointer). -/
def main (L : Rpmlib) (argv : List String) : Option Run :=
  match parse_args argv with
  | .error e => some ⟨e.status, "", e.err, []⟩
  | .ok (rpmfile, option) =>
    match L.Fopen rpmfile with
    | none =>
      some ⟨1, "", "Failed to open " ++ rpmfile ++ ": " ++ L.FstrerrorNull ++ "\n",
        [.Fopen rpmfile]⟩
    | some fd =>
      if fd.Ferror then
        some ⟨1, "", "Failed to open " ++ rpmfile ++ ": " ++ fd.Fstrerror ++ "\n",
          [.Fopen rpmfile]⟩
      else
        let opened := [Call.Fopen rpmfile, .rpmtsCreate,
          .rpmtsSetVSFlags [.NOHDRCHK, .NODIGESTS, .NOSIGNATURES],
          .rpmReadPackageFile rpmfile]
        match L.rpmReadPackageFile fd rpmfile with
        | none =>
          some ⟨1, "", "Failed to read package file " ++ rpmfile ++ "\n", opened⟩
        | some hdr =>
          if option < 0 then none
          else
            match (optinfo[option.toNat]?).bind (·.fn) with
            | none => none
            | some f =>
              some ⟨0, f.call L.sense hdr, "",
                opened ++ [.fn f, .headerFree, .rpmtsFree, .Fclose]⟩

/-! ## Vocabulary of the properties -/

/-- The twelve flags of the command line, in the order of the table. -/
def flags : List String :=
  ["--arch", "--compressor", "--dependencies", "--description", "--distribution",
   "--filenames", "--license", "--name", "--release", "--summary", "--url", "--version"]

/-- The text `t` occurs in the text `s`. -/
def occursIn (t s : String) : Prop := t.data <:+: s.data

instance (t s : String) : Decidable (occursIn t s) :=
  inferInstanceAs (Decidable (t.data <:+: s.data))

/-- The number of lines of a text: the number of its newline characters. -/
def lineCount (s : String) : Nat := s.data.count '\n'

/-- The texts of a list one after the other. -/
def concat : List String → String
  | [] => ""
  | s :: rest => s ++ concat rest

/-- The flags of the table with their descriptions, in the order of the
table. -/
def rows : List (String × String) :=
  [("--arch", "architecture"), ("--compressor", "payload compressor"),
   ("--dependencies", "package dependencies"), ("--description", "package description"),
   ("--distribution", "distribution name"), ("--filenames", "list of files"),
   ("--license", "package license"), ("--name", "package name"),
   ("--release", "release number"), ("--summary", "summary information"),
   ("--url", "project url"), ("--version", "package version")]

/-- The line of the usage text for a flag and its description: two blanks, the
flag, blanks up to a width of 17, two blanks, the description, a newline. -/
def row (r : String × String) : String :=
  "  " ++ r.1 ++ blanks (17 - r.1.length) ++ "  " ++ r.2 ++ "\n"

/-- A text left-padded to a width of 17: the blanks first, then the text. -/
def leftPadded17 (s : String) : String := blanks (17 - s.length) ++ s

/-- The entries of a dependency set for which `print_dependencies` writes: the
entries without the rpmlib bit, in order. -/
def printed (S : Sense) (l : List DepEntry) : List DepEntry :=
  l.filter fun e => e.Flags &&& S.RPMSENSE_RPMLIB = 0

/-- The number of newline characters in the name and the version of an
entry. -/
def embeddedNewlines (e : DepEntry) : Nat :=
  lineCount e.N +
    (match e.EVR with
     | some version => lineCount version
     | none => 0)

/-- The ten flags of the scalar fields, in the order of the table. -/
def scalarFlags : List String :=
  ["--arch", "--compressor", "--description", "--distribution", "--license",
   "--name", "--release", "--summary", "--url", "--version"]

/-- The header field a scalar-field flag names: the flag without its dashes,
and the payload compressor for `--compressor`. -/
def field (flag : String) : String :=
  if flag = "--compressor" then "payloadcompressor" else flag.drop 2

/-- The format that queries a field, `%{field}`. -/
def fieldFormat (name : String) : String := "%\x7b" ++ name ++ "\x7d"

/-- The function of the first entry of the table that has the flag as its
name. -/
def selected (flag : String) : Option Fn :=
  (optinfo.find? fun e => e.name = some flag).bind Optinfo.fn

/-- The calls of a run of `main` that reaches the call through the table. -/
def fullTrace (rpmfile : String) (f : Fn) : List Call :=
  [.Fopen rpmfile, .rpmtsCreate, .rpmtsSetVSFlags [.NOHDRCHK, .NODIGESTS, .NOSIGNATURES],
   .rpmReadPackageFile rpmfile, .fn f, .headerFree, .rpmtsFree, .Fclose]

/-- The text has no newline character. -/
def noNewline (s : String) : Prop := '\n' ∉ s.data

instance (s : String) : Decidable (noNewline s) :=
  inferInstanceAs (Decidable ('\n' ∉ s.data))

/-- The masks as the headers of RPM declare them: `(1 << 1)`, `(1 << 2)`,
`(1 << 3)` and `(1 << 24)`. -/
def rpmSense : Sense := ⟨2, 4, 8, 16777216⟩

/-- A library for which no file can be opened. -/
def noFiles : Rpmlib :=
  ⟨rpmSense, fun _ => none, "No such file or directory", fun _ _ => none⟩

/-- A library with one file, which opens and decodes to the given header. -/
def oneFile (path : String) (hdr : Header) : Rpmlib :=
  ⟨rpmSense, fun p => if p = path then some ⟨false, ""⟩ else none,
   "No such file or directory", fun _ p => if p = path then some hdr else none⟩

/-- A library for which every file opens and no file decodes. -/
def noPackages : Rpmlib := ⟨rpmSense, fun _ => some ⟨false, ""⟩, "", fun _ _ => none⟩

/-- A header whose name field is `examplepkg`. -/
def examplepkg : Header :=
  ⟨fun fmt => if fmt = "%\x7bname\x7d" then some "examplepkg" else none, [], []⟩

/-- A header for which `headerSprintf` returns the empty string. -/
def blankFields : Header := ⟨fun _ => some "", [], []⟩

/-- A header whose description has two lines. -/
def twoLineDescription : Header :=
  ⟨fun fmt =>
    if fmt = "%\x7bdescription\x7d" then some "First line.\nSecond line." else none,
   [], []⟩

/-- A header with the file names and the dependencies given. -/
def payload (deps : List DepEntry) (files : List String) : Header :=
  ⟨fun _ => none, deps, files⟩

/-! ## Lemmas -/

set_option maxRecDepth 100000

theorem char_eq_of_toNat_eq {a b : Char} (h : a.toNat = b.toNat) : a = b := by
  apply Char.ext
  apply UInt32.ext
  exact h

theorem strcmpChars_eq_zero_iff :
    ∀ as bs : List Char, strcmpChars as bs = 0 ↔ as = bs
  | [], [] => by simp [strcmpChars]
  | [], _ :: _ => by simp [strcmpChars]
  | _ :: _, [] => by simp [strcmpChars]
  | a :: as, b :: bs => by
    have ih := strcmpChars_eq_zero_iff as bs
    unfold strcmpChars
    split_ifs with h1 h2
    · have : a ≠ b := fun h => by subst h; omega
      simp [this]
    · have : a ≠ b := fun h => by subst h; omega
      simp [this]
    · have : a = b := char_eq_of_toNat_eq (by omega)
      simp [this, ih]

theorem strcmp_eq_zero_iff (a b : String) : strcmp a b = 0 ↔ a = b := by
  unfold strcmp
  rw [strcmpChars_eq_zero_iff]
  constructor
  · exact String.ext
  · intro h; rw [h]

theorem parse_args_loop_optinfo (arg : String) :
    parse_args_loop optinfo 0 arg (-1) =
      if arg = "--arch" then 0 else if arg = "--compressor" then 1
      else if arg = "--dependencies" then 2 else if arg = "--description" then 3
      else if arg = "--distribution" then 4 else if arg = "--filenames" then 5
      else if arg = "--license" then 6 else if arg = "--name" then 7
      else if arg = "--release" then 8 else if arg = "--summary" then 9
      else if arg = "--url" then 10 else if arg = "--version" then 11 else -1 := by
  simp [parse_args_loop, optinfo, strcmp_eq_zero_iff]

theorem parse_args_three (prog arg path : String) :
    parse_args [prog, arg, path] =
      if parse_args_loop optinfo 0 arg (-1) = -1 then .error ⟨1, usage_text prog⟩
      else .ok (path, parse_args_loop optinfo 0 arg (-1)) := by
  simp [parse_args, usage, fmt_s]

theorem lineCount_append (s t : String) :
    lineCount (s ++ t) = lineCount s + lineCount t := by
  simp [lineCount, String.data_append, List.count_append]

theorem lineCount_of_noNewline {s : String} (h : noNewline s) : lineCount s = 0 :=
  List.count_eq_zero.2 h

theorem lineCount_newline : lineCount "\n" = 1 := by decide

theorem lineCount_empty : lineCount "" = 0 := by decide

theorem strlen_ne_zero_iff (s : String) : strlen s ≠ 0 ↔ s ≠ "" := by
  unfold strlen
  rw [Ne, Ne, String.length, List.length_eq_zero]
  constructor
  · intro h hs; exact h (by rw [hs])
  · intro h hs; exact h (String.ext hs)

theorem parse_args_of_not_mem (prog arg path : String) (h : arg ∉ flags) :
    parse_args [prog, arg, path] = .error ⟨1, usage_text prog⟩ := by
  rw [parse_args_three, parse_args_loop_optinfo]
  simp only [flags, List.mem_cons, List.mem_singleton, List.not_mem_nil, or_false,
    not_or] at h
  simp [h]

theorem parse_args_of_mem (prog arg path : String) (h : arg ∈ flags) :
    ∃ opt : Int, parse_args [prog, arg, path] = .ok (path, opt) ∧
      0 ≤ opt ∧ opt < 12 ∧
      ∃ desc f, optinfo[opt.toNat]? = some ⟨some arg, some desc, some f⟩ := by
  rw [parse_args_three, parse_args_loop_optinfo]
  simp only [flags, List.mem_cons, List.mem_singleton, List.not_mem_nil, or_false] at h
  rcases h with rfl | rfl | rfl | rfl | rfl | rfl | rfl | rfl | rfl | rfl | rfl | rfl <;>
    simp [optinfo]

theorem occursIn_middle (a s b : String) : occursIn s (a ++ s ++ b) := by
  refine ⟨a.data, b.data, ?_⟩
  simp [String.data_append]

/-- A run of `main` after `parse_args` has returned, when the file opens and
its header decodes. -/
theorem main_of_parse (L : Rpmlib) (argv : List String) (rpmfile : String) (option : Int)
    (fd : FD) (hdr : Header) (f : Fn)
    (hparse : parse_args argv = .ok (rpmfile, option))
    (hopen : L.Fopen rpmfile = some fd) (herr : fd.Ferror = false)
    (hread : L.rpmReadPackageFile fd rpmfile = some hdr)
    (hopt : ¬ option < 0) (hfn : (optinfo[option.toNat]?).bind (·.fn) = some f) :
    main L argv = some ⟨0, f.call L.sense hdr, "", fullTrace rpmfile f⟩ := by
  unfold main
  rw [hparse]
  simp only [hopen, herr, hread, hopt, hfn, fullTrace]
  simp

/-- A run in which the file opens and its header decodes: the function the
table has for the flag is called, and the exit status is 0. -/
theorem main_dispatch (L : Rpmlib) (prog flag path : String) (fd : FD) (hdr : Header)
    (hflag : flag ∈ flags) (hopen : L.Fopen path = some fd) (herr : fd.Ferror = false)
    (hread : L.rpmReadPackageFile fd path = some hdr) :
    ∃ f, selected flag = some f ∧
      main L [prog, flag, path] = some ⟨0, f.call L.sense hdr, "", fullTrace path f⟩ := by
  simp only [flags, List.mem_cons, List.mem_singleton, List.not_mem_nil, or_false] at hflag
  rcases hflag with rfl | rfl | rfl | rfl | rfl | rfl | rfl | rfl | rfl | rfl | rfl | rfl
  · exact ⟨.print_arch, by decide, main_of_parse L _ path 0 fd hdr .print_arch
      (by rw [parse_args_three, parse_args_loop_optinfo]; simp) hopen herr hread
      (by decide) (by decide)⟩
  · exact ⟨.print_compressor, by decide, main_of_parse L _ path 1 fd hdr .print_compressor
      (by rw [parse_args_three, parse_args_loop_optinfo]; simp) hopen herr hread
      (by decide) (by decide)⟩
  · exact ⟨.print_dependencies, by decide, main_of_parse L _ path 2 fd hdr .print_dependencies
      (by rw [parse_args_three, parse_args_loop_optinfo]; simp) hopen herr hread
      (by decide) (by decide)⟩
  · exact ⟨.print_description, by decide, main_of_parse L _ path 3 fd hdr .print_description
      (by rw [parse_args_three, parse_args_loop_optinfo]; simp) hopen herr hread
      (by decide) (by decide)⟩
  · exact ⟨.print_distribution, by decide, main_of_parse L _ path 4 fd hdr .print_distribution
      (by rw [parse_args_three, parse_args_loop_optinfo]; simp) hopen herr hread
      (by decide) (by decide)⟩
  · exact ⟨.print_filenames, by decide, main_of_parse L _ path 5 fd hdr .print_filenames
      (by rw [parse_args_three, parse_args_loop_optinfo]; simp) hopen herr hread
      (by decide) (by decide)⟩
  · exact ⟨.print_license, by decide, main_of_parse L _ path 6 fd hdr .print_license
      (by rw [parse_args_three, parse_args_loop_optinfo]; simp) hopen herr hread
      (by decide) (by decide)⟩
  · exact ⟨.print_name, by decide, main_of_parse L _ path 7 fd hdr .print_name
      (by rw [parse_args_three, parse_args_loop_optinfo]; simp) hopen herr hread
      (by decide) (by decide)⟩
  · exact ⟨.print_release, by decide, main_of_parse L _ path 8 fd hdr .print_release
      (by rw [parse_args_three, parse_args_loop_optinfo]; simp) hopen herr hread
      (by decide) (by decide)⟩
  · exact ⟨.print_summary, by decide, main_of_parse L _ path 9 fd hdr .print_summary
      (by rw [parse_args_three, parse_args_loop_optinfo]; simp) hopen herr hread
      (by decide) (by decide)⟩
  · exact ⟨.print_url, by decide, main_of_parse L _ path 10 fd hdr .print_url
      (by rw [parse_args_three, parse_args_loop_optinfo]; simp) hopen herr hread
      (by decide) (by decide)⟩
  · exact ⟨.print_version, by decide, main_of_parse L _ path 11 fd hdr .print_version
      (by rw [parse_args_three, parse_args_loop_optinfo]; simp) hopen herr hread
      (by decide) (by decide)⟩

theorem selected_isSome : ∀ flag ∈ scalarFlags, (selected flag).isSome = true := by
  decide

theorem scalarFlags_subset : ∀ flag ∈ scalarFlags, flag ∈ flags := by decide

/-- The function the table has for a scalar-field flag writes what
`generic_print_msg` writes for the format of the flag's field. -/
theorem selected_scalar (S : Sense) (hdr : Header) (flag : String) (f : Fn)
    (hflag : flag ∈ scalarFlags) (hf : selected flag = some f) :
    f.call S hdr = generic_print_msg hdr (fieldFormat (field flag)) := by
  simp only [scalarFlags, List.mem_cons, List.mem_singleton, List.not_mem_nil, or_false]
    at hflag
  rcases hflag with rfl | rfl | rfl | rfl | rfl | rfl | rfl | rfl | rfl | rfl <;>
    · have h : _ = some f := hf
      simp [selected, optinfo] at h
      subst h
      rfl

theorem noNewline_append {a b : String} (ha : noNewline a) (hb : noNewline b) :
    noNewline (a ++ b) := by
  unfold noNewline at *
  rw [String.data_append, List.mem_append]
  exact fun h => h.elim ha hb

theorem print_filenames_loop_eq (l : List String) :
    print_filenames_loop l = concat (l.map fun name => name ++ "\n") := by
  induction l with
  | nil => rfl
  | cons s rest ih => simp [print_filenames_loop, concat, ih]

theorem lineCount_print_filenames_loop (l : List String) :
    lineCount (print_filenames_loop l) = l.length + (l.map lineCount).sum := by
  induction l with
  | nil => exact lineCount_empty
  | cons s rest ih =>
    simp [print_filenames_loop, lineCount_append, lineCount_newline, ih]
    omega

theorem sum_lineCount_of_noNewline (l : List String) (h : ∀ s ∈ l, noNewline s) :
    (l.map lineCount).sum = 0 := by
  induction l with
  | nil => rfl
  | cons s rest ih =>
    simp [lineCount_of_noNewline (h s (List.mem_cons_self _ _)),
      ih fun t ht => h t (List.mem_cons_of_mem _ ht)]

theorem print_dependency_of_rpmlib (S : Sense) (e : DepEntry)
    (h : e.Flags &&& S.RPMSENSE_RPMLIB ≠ 0) : print_dependency S e = "" := by
  simp [print_dependency, h]

/-- The text `print_dependencies` writes before the newline of an entry. -/
theorem print_dependency_body (S : Sense) (e : DepEntry)
    (h : e.Flags &&& S.RPMSENSE_RPMLIB = 0) :
    ∃ text, print_dependency S e = text ++ "\n" ∧
      (noNewline e.N → (∀ v, e.EVR = some v → noNewline v) → noNewline text) := by
  unfold print_dependency
  simp only [h, ne_eq, not_true_eq_false, if_false]
  refine ⟨_, rfl, ?_⟩
  intro hN hV
  apply noNewline_append hN
  cases hv : e.EVR with
  | none => simp only []; decide
  | some version =>
    simp only []
    split_ifs <;>
      first
      | decide
      | (repeat' apply noNewline_append) <;> first | decide | exact hV version hv

theorem print_dependencies_loop_eq (S : Sense) (l : List DepEntry) :
    print_dependencies_loop S l = concat ((printed S l).map (print_dependency S)) := by
  unfold printed
  induction l with
  | nil => rfl
  | cons e rest ih =>
    by_cases h : e.Flags &&& S.RPMSENSE_RPMLIB = 0
    · simp [print_dependencies_loop, List.filter_cons, h, concat, ih]
    · simp [print_dependencies_loop, List.filter_cons, h, ih,
        print_dependency_of_rpmlib S e h]

theorem lineCount_ite (c : Prop) [Decidable c] (a : String) (ha : lineCount a = 0) :
    lineCount (if c then a else "") = 0 := by
  split
  · exact ha
  · exact lineCount_empty

/-- The lines of what is written for an entry without the rpmlib bit: one, and
one more for each newline character in its name and version. -/
theorem lineCount_print_dependency (S : Sense) (e : DepEntry)
    (h : e.Flags &&& S.RPMSENSE_RPMLIB = 0) :
    lineCount (print_dependency S e) = 1 + embeddedNewlines e := by
  have hb : lineCount " " = 0 := by decide
  have hlt : lineCount "<" = 0 := by decide
  have hgt : lineCount ">" = 0 := by decide
  have heq : lineCount "=" = 0 := by decide
  unfold print_dependency embeddedNewlines
  simp only [h, ne_eq, not_true_eq_false, if_false, lineCount_append, lineCount_newline]
  cases e.EVR with
  | none =>
    simp only [lineCount_empty]
    omega
  | some version =>
    simp only []
    by_cases hv : strlen version = 0
    · have hempty : version = "" := by
        by_contra hne
        exact (strlen_ne_zero_iff version).2 hne hv
      subst hempty
      simp only [show strlen "" = 0 from rfl, not_true_eq_false, if_false, lineCount_empty]
      omega
    · simp only [hv, not_false_eq_true, if_true, lineCount_append, lineCount_ite _ _ hb,
        lineCount_ite _ _ hlt, lineCount_ite _ _ hgt, lineCount_ite _ _ heq, hb]
      omega

theorem lineCount_print_dependencies_loop (S : Sense) (l : List DepEntry) :
    lineCount (print_dependencies_loop S l) =
      (printed S l).length + ((printed S l).map embeddedNewlines).sum := by
  induction l with
  | nil => exact lineCount_empty
  | cons e rest ih =>
    by_cases h : e.Flags &&& S.RPMSENSE_RPMLIB = 0
    · have hp : printed S (e :: rest) = e :: printed S rest := by
        simp [printed, List.filter_cons, h]
      rw [hp]
      simp only [print_dependencies_loop, lineCount_append, ih,
        lineCount_print_dependency S e h, List.length_cons, List.map_cons, List.sum_cons]
      omega
    · have hp : printed S (e :: rest) = printed S rest := by
        simp [printed, List.filter_cons, h]
      rw [hp]
      simp only [print_dependencies_loop, lineCount_append, ih,
        print_dependency_of_rpmlib S e h, lineCount_empty, Nat.zero_add]

theorem embeddedNewlines_eq_zero (e : DepEntry) (hN : noNewline e.N)
    (hV : ∀ v, e.EVR = some v → noNewline v) : embeddedNewlines e = 0 := by
  unfold embeddedNewlines
  rw [lineCount_of_noNewline hN]
  cases hv : e.EVR with
  | none => rfl
  | some version => simp [lineCount_of_noNewline (hV version hv)]

theorem sum_embeddedNewlines_eq_zero (l : List DepEntry)
    (h : ∀ e ∈ l, embeddedNewlines e = 0) : (l.map embeddedNewlines).sum = 0 := by
  induction l with
  | nil => rfl
  | cons e rest ih =>
    simp [h e (List.mem_cons_self _ _), ih fun x hx => h x (List.mem_cons_of_mem _ hx)]

/-! ## The claims -/

/-- C1: with an argument vector of length three, `parse_args` succeeds exactly
when `argv[1]` is, character for character, one of the twelve flag names of the
table `optinfo`; on success it returns `argv[2]` as the file and an index
`0 <= i < 12` of the table whose entry has `argv[1]` as its name and a function
that is not `NULL`; for every other `argv[1]`, whatever `argv[2]` is, the usage
text is written, the exit status is 1 and no file is opened (`main` makes no
library call). -/
theorem parse_args_exact_flag (L : Rpmlib) (prog arg path : String) :
    flags = optinfo.filterMap Optinfo.name ∧
    ((∃ r, parse_args [prog, arg, path] = .ok r) ↔ arg ∈ flags) ∧
    (∀ rpmfile opt, parse_args [prog, arg, path] = .ok (rpmfile, opt) →
      rpmfile = path ∧ 0 ≤ opt ∧ opt < 12 ∧
      ∃ desc f, optinfo[opt.toNat]? = some ⟨some arg, some desc, some f⟩) ∧
    (arg ∉ flags →
      parse_args [prog, arg, path] = .error ⟨1, usage_text prog⟩ ∧
      main L [prog, arg, path] = some ⟨1, "", usage_text prog, []⟩) := by
  have hnot := parse_args_of_not_mem prog arg path
  have hmem := parse_args_of_mem prog arg path
  refine ⟨by decide, ?_, ?_, ?_⟩
  · constructor
    · rintro ⟨r, hr⟩
      by_contra h
      rw [hnot h] at hr
      cases hr
    · intro h
      obtain ⟨opt, ho, _⟩ := hmem h
      exact ⟨_, ho⟩
  · intro rpmfile opt hr
    by_cases h : arg ∈ flags
    · obtain ⟨opt1, ho, h0, h12, hd⟩ := hmem h
      rw [ho] at hr
      cases hr
      exact ⟨rfl, h0, h12, hd⟩
    · rw [hnot h] at hr
      cases hr
  · intro h
    exact ⟨hnot h, by simp [main, hnot h]⟩

/-- C2: when the number of arguments after the program name is not two, the
exit status is 1, the usage text is written to `stderr`, each of the twelve
flags occurs in it, and nothing is written to `stdout`. -/
theorem usage_on_wrong_argument_count (L : Rpmlib) (prog : String) (args : List String)
    (h : args.length ≠ 2) :
    main L (prog :: args) = some ⟨1, "", usage_text prog, []⟩ ∧
    flags.length = 12 ∧ ∀ flag ∈ flags, occursIn flag (usage_text prog) := by
  refine ⟨?_, by decide, ?_⟩
  · have hp : parse_args (prog :: args) = .error ⟨1, usage_text prog⟩ := by
      simp [parse_args, h, usage, fmt_s]
    simp [main, hp]
  · intro flag hflag
    have hbody : ∀ flag ∈ flags, occursIn flag (usage_loop optinfo) := by decide
    have hsuf : (usage_loop optinfo).data <:+: (usage_text prog).data := by
      unfold usage_text
      rw [String.data_append]
      exact (List.suffix_append _ _).isInfix
    exact List.IsInfix.trans (hbody flag hflag) hsuf

theorem usage_on_wrong_argument_count_witness :
    main noFiles ["rpminfo", "--name"] = some ⟨1, "", usage_text "rpminfo", []⟩ ∧
    flags.length = 12 ∧ ∀ flag ∈ flags, occursIn flag (usage_text "rpminfo") :=
  usage_on_wrong_argument_count noFiles "rpminfo" ["--name"] (by decide)

/-- C9, as the code has it: what `usage` writes is the three header lines
followed by one line for each entry of the table, in the order of the table
(`--arch` first, `--version` last); the line of an entry is two blanks, the
flag, blanks after the flag up to a width of 17 (the flag is left-justified,
the padding is on its right), two blanks, the description and a newline, so
that in each of the twelve lines the flag starts in column 2 and the
description in column 21.  The exit status is the one `usage` is called
with. -/
theorem usage_text_layout (appname : String) (retval : Int) :
    optinfo.map (fun e => (e.name, e.desc)) =
      rows.map (fun r => (some r.1, some r.2)) ++ [(none, none)] ∧
    rows.length = 12 ∧ rows.head? = some ("--arch", "architecture") ∧
    rows.getLast? = some ("--version", "package version") ∧
    usage appname retval =
      ⟨retval, "Usage: " ++ appname ++ " OPTION <file.rpm>\n" ++ "\n" ++
        "Available (mutually-exclusive) options are:\n" ++ concat (rows.map row)⟩ ∧
    ∀ r ∈ rows, lineCount (row r) = 1 ∧ (r.1 ++ blanks (17 - r.1.length)).length = 17 ∧
      row r = "  " ++ (r.1 ++ blanks (17 - r.1.length)) ++ "  " ++ (r.2 ++ "\n") ∧
      ("  " ++ (r.1 ++ blanks (17 - r.1.length)) ++ "  ").length = 21 := by
  refine ⟨by decide, by decide, by decide, by decide, ?_, by decide⟩
  have hbody : usage_loop optinfo = concat (rows.map row) := by decide
  unfold usage usage_text
  rw [hbody]
  simp [String.append_assoc]

/-- C9 as stated fails: the flag is not left-padded.  In what `usage` writes
the line of `--arch` has the flag right after the two leading blanks and the
padding after the flag, and no flag of the table occurs in the text with the
padding before it. -/
theorem usage_flag_not_left_padded :
    usage_line "--arch" (some "architecture") = "  --arch             architecture\n" ∧
    occursIn "\n  --arch             architecture\n" (usage "rpminfo" 1).err ∧
    leftPadded17 "--arch" = "           --arch" ∧
    ∀ flag ∈ flags, ¬ occursIn (leftPadded17 flag) (usage "rpminfo" 1).err := by
  decide

/-- C6: with a flag of the table, when the file does not open (`Fopen` returns
`NULL` or `Ferror` is set) or its header does not decode, the exit status is 1,
the message written to `stderr` contains the path, nothing is written to
`stdout` and no function of the table is called. -/
theorem failure_before_dispatch (L : Rpmlib) (prog flag path : String)
    (hflag : flag ∈ flags)
    (hfail : L.Fopen path = none ∨ (∃ fd, L.Fopen path = some fd ∧ fd.Ferror = true) ∨
      (∃ fd, L.Fopen path = some fd ∧ fd.Ferror = false ∧
        L.rpmReadPackageFile fd path = none)) :
    ∃ r, main L [prog, flag, path] = some r ∧ r.status = 1 ∧ r.out = "" ∧
      occursIn path r.err ∧ ∀ f, Call.fn f ∉ r.calls := by
  obtain ⟨opt, hp, -⟩ := parse_args_of_mem prog flag path hflag
  rcases hfail with h | ⟨fd, h, he⟩ | ⟨fd, h, he, hr⟩
  · refine ⟨⟨1, "", "Failed to open " ++ path ++ ": " ++ L.FstrerrorNull ++ "\n",
      [.Fopen path]⟩, by simp [main, hp, h], rfl, rfl, ?_, by simp⟩
    have := occursIn_middle "Failed to open " path (": " ++ L.FstrerrorNull ++ "\n")
    simpa [String.append_assoc] using this
  · refine ⟨⟨1, "", "Failed to open " ++ path ++ ": " ++ fd.Fstrerror ++ "\n",
      [.Fopen path]⟩, by simp [main, hp, h, he], rfl, rfl, ?_, by simp⟩
    have := occursIn_middle "Failed to open " path (": " ++ fd.Fstrerror ++ "\n")
    simpa [String.append_assoc] using this
  · refine ⟨⟨1, "", "Failed to read package file " ++ path ++ "\n",
      [.Fopen path, .rpmtsCreate, .rpmtsSetVSFlags [.NOHDRCHK, .NODIGESTS, .NOSIGNATURES],
        .rpmReadPackageFile path]⟩, by simp [main, hp, h, he, hr], rfl, rfl, ?_, by simp⟩
    exact occursIn_middle "Failed to read package file " path "\n"

theorem failure_before_dispatch_witness :
    ∃ r, main noFiles ["rpminfo", "--name", "missing.rpm"] = some r ∧ r.status = 1 ∧
      r.out = "" ∧ occursIn "missing.rpm" r.err ∧ ∀ f, Call.fn f ∉ r.calls :=
  failure_before_dispatch noFiles "rpminfo" "--name" "missing.rpm" (by decide) (Or.inl rfl)

/-- C8, at a file that opens and does not decode: `main` returns 1 right after
the message, and neither `rpmtsFree` nor `Fclose` is called, although the file
was opened and the session created. -/
theorem main_parse_failure_releases_nothing :
    main noPackages ["rpminfo", "--name", "notes.txt"] =
      some ⟨1, "", "Failed to read package file notes.txt\n",
        [.Fopen "notes.txt", .rpmtsCreate,
         .rpmtsSetVSFlags [.NOHDRCHK, .NODIGESTS, .NOSIGNATURES],
         .rpmReadPackageFile "notes.txt"]⟩ ∧
    ∀ r, main noPackages ["rpminfo", "--name", "notes.txt"] = some r →
      Call.Fopen "notes.txt" ∈ r.calls ∧ Call.rpmtsCreate ∈ r.calls ∧
      Call.rpmtsFree ∉ r.calls ∧ Call.Fclose ∉ r.calls := by
  have h : main noPackages ["rpminfo", "--name", "notes.txt"] =
      some ⟨1, "", "Failed to read package file notes.txt\n",
        [.Fopen "notes.txt", .rpmtsCreate,
         .rpmtsSetVSFlags [.NOHDRCHK, .NODIGESTS, .NOSIGNATURES],
         .rpmReadPackageFile "notes.txt"]⟩ := by decide
  refine ⟨h, ?_⟩
  intro r hr
  rw [h] at hr
  cases hr
  decide

/-- C3, as the code has it: for an entry without the rpmlib bit the line is the
name and a newline when the version is absent or empty; otherwise it is the
name, a blank if and only if the flags are not zero, `<` if the less-than bit
is set, `>` if the greater-than bit is set, `=` in every case (the mask
`RPMSENSE_EQUAL` is a constant that is not zero), a blank, the version and a
newline. -/
theorem print_dependency_line (S : Sense) (e : DepEntry)
    (hequal : S.RPMSENSE_EQUAL ≠ 0) (hlib : e.Flags &&& S.RPMSENSE_RPMLIB = 0) :
    ((e.EVR = none ∨ e.EVR = some "") → print_dependency S e = e.N ++ "\n") ∧
    (∀ version, e.EVR = some version → version ≠ "" →
      print_dependency S e =
        e.N ++ (if e.Flags ≠ 0 then " " else "") ++
          (if e.Flags &&& S.RPMSENSE_LESS ≠ 0 then "<" else "") ++
          (if e.Flags &&& S.RPMSENSE_GREATER ≠ 0 then ">" else "") ++
          "=" ++ " " ++ version ++ "\n") := by
  constructor
  · rintro (h | h) <;> simp [print_dependency, hlib, h, strlen]
  · intro version hv hne
    have hlen : strlen version ≠ 0 := (strlen_ne_zero_iff version).2 hne
    simp only [print_dependency, hlib, hv, hlen, hequal, ne_eq, not_true_eq_false,
      not_false_eq_true, if_true, if_false, String.append_assoc]

theorem print_dependency_line_witness :
    print_dependency rpmSense ⟨"glibc", some "2.17", 12⟩ = "glibc >= 2.17\n" :=
  ((print_dependency_line rpmSense ⟨"glibc", some "2.17", 12⟩ (by decide) (by decide)).2
    "2.17" rfl (by decide)).trans (by decide)

/-- C3 as stated fails at flags 0: with a version and no flag bit the name is
followed by `=` directly, with no blank between them. -/
theorem print_dependency_no_space_at_zero_flags :
    print_dependency rpmSense ⟨"glibc", some "2.17", 0⟩ = "glibc= 2.17\n" ∧
    print_dependency rpmSense ⟨"glibc", some "2.17", 0⟩ ≠ "glibc = 2.17\n" := by
  decide

/-- C4, as the code has it: for each of the ten scalar-field flags the text the
selected function writes is empty, or it is the value `headerSprintf` returned
followed by one newline; that text has one line more than the value has newline
characters, so it is one line exactly when the value has none. -/
theorem scalar_output_lines (S : Sense) (hdr : Header) (flag : String)
    (hflag : flag ∈ scalarFlags) :
    ∃ f, selected flag = some f ∧
      (f.call S hdr = "" ∨
        ∃ value, hdr.headerSprintf (fieldFormat (field flag)) = some value ∧
          f.call S hdr = value ++ "\n" ∧
          lineCount (f.call S hdr) = lineCount value + 1 ∧
          (noNewline value → lineCount (f.call S hdr) = 1)) := by
  obtain ⟨f, hf⟩ := Option.isSome_iff_exists.1 (selected_isSome flag hflag)
  refine ⟨f, hf, ?_⟩
  rw [selected_scalar S hdr flag f hflag hf]
  unfold generic_print_msg
  cases hq : hdr.headerSprintf (fieldFormat (field flag)) with
  | none => exact Or.inl rfl
  | some value =>
    refine Or.inr ⟨value, rfl, rfl, ?_, ?_⟩
    · simp [lineCount_append, lineCount_newline]
    · intro hn
      simp [lineCount_append, lineCount_newline, lineCount_of_noNewline hn]

theorem scalar_output_lines_witness :
    ∃ f, selected "--name" = some f ∧
      (f.call rpmSense examplepkg = "" ∨
        ∃ value, examplepkg.headerSprintf (fieldFormat (field "--name")) = some value ∧
          f.call rpmSense examplepkg = value ++ "\n" ∧
          lineCount (f.call rpmSense examplepkg) = lineCount value + 1 ∧
          (noNewline value → lineCount (f.call rpmSense examplepkg) = 1)) :=
  scalar_output_lines rpmSense examplepkg "--name" (by decide)

/-- C4 as stated fails for a description of two lines: `--description` writes
both of them. -/
theorem description_of_two_lines :
    selected "--description" = some .print_description ∧
    Fn.call rpmSense twoLineDescription .print_description =
      "First line.\nSecond line.\n" ∧
    lineCount (Fn.call rpmSense twoLineDescription .print_description) = 2 := by
  decide

/-- C5, as the code has it: `print_dependencies` writes, in the order of the
sequence, nothing for an entry with the rpmlib bit and one newline-terminated
text for every other entry; the number of lines written is the number of
entries without the rpmlib bit plus the number of newline characters in their
names and versions, so it is the number of entries without the rpmlib bit when
no name and no version of such an entry has a newline character in it,
whatever the entries with the rpmlib bit hold. -/
theorem print_dependencies_lines (S : Sense) (hdr : Header) :
    print_dependencies S hdr =
      concat ((printed S hdr.requirename).map (print_dependency S)) ∧
    printed S hdr.requirename =
      hdr.requirename.filter (fun e => e.Flags &&& S.RPMSENSE_RPMLIB = 0) ∧
    (∀ e, e.Flags &&& S.RPMSENSE_RPMLIB ≠ 0 → print_dependency S e = "") ∧
    (∀ e, e.Flags &&& S.RPMSENSE_RPMLIB = 0 →
      (∃ text, print_dependency S e = text ++ "\n") ∧
      lineCount (print_dependency S e) = 1 + embeddedNewlines e) ∧
    lineCount (print_dependencies S hdr) =
      (printed S hdr.requirename).length +
        ((printed S hdr.requirename).map embeddedNewlines).sum ∧
    ((∀ e ∈ hdr.requirename, e.Flags &&& S.RPMSENSE_RPMLIB = 0 →
        noNewline e.N ∧ ∀ v, e.EVR = some v → noNewline v) →
      (∀ e ∈ hdr.requirename, e.Flags &&& S.RPMSENSE_RPMLIB = 0 →
        lineCount (print_dependency S e) = 1) ∧
      lineCount (print_dependencies S hdr) = (printed S hdr.requirename).length) := by
  refine ⟨print_dependencies_loop_eq S _, rfl, print_dependency_of_rpmlib S, ?_,
    lineCount_print_dependencies_loop S _, ?_⟩
  · intro e h
    obtain ⟨text, htext, -⟩ := print_dependency_body S e h
    exact ⟨⟨text, htext⟩, lineCount_print_dependency S e h⟩
  · intro hl
    constructor
    · intro e he h
      rw [lineCount_print_dependency S e h,
        embeddedNewlines_eq_zero e (hl e he h).1 (hl e he h).2]
    · unfold print_dependencies
      rw [lineCount_print_dependencies_loop, sum_embeddedNewlines_eq_zero]
      · rfl
      · intro e he
        have hmem := List.mem_filter.1 he
        have hbit : e.Flags &&& S.RPMSENSE_RPMLIB = 0 := by simpa using hmem.2
        exact embeddedNewlines_eq_zero e (hl e hmem.1 hbit).1 (hl e hmem.1 hbit).2

theorem print_dependencies_lines_witness :
    lineCount (print_dependencies rpmSense
      (payload [⟨"rpmlib(Odd\nFeature)", some "3.0.4-1", 16777226⟩,
        ⟨"glibc", some "2.17", 12⟩, ⟨"bash", none, 0⟩] [])) = 2 :=
  ((print_dependencies_lines rpmSense
      (payload [⟨"rpmlib(Odd\nFeature)", some "3.0.4-1", 16777226⟩,
        ⟨"glibc", some "2.17", 12⟩, ⟨"bash", none, 0⟩] [])).2.2.2.2.2 (by decide)).2.trans
    (by decide)

/-- C5 as stated fails for a name with a newline character in it: the one
entry, which has no rpmlib bit, contributes two lines. -/
theorem dependency_name_of_two_lines :
    print_dependencies rpmSense (payload [⟨"odd\nname", none, 0⟩] []) = "odd\nname\n" ∧
    lineCount (print_dependencies rpmSense (payload [⟨"odd\nname", none, 0⟩] [])) = 2 ∧
    ((payload [⟨"odd\nname", none, 0⟩] []).requirename.filter
      fun e => e.Flags &&& rpmSense.RPMSENSE_RPMLIB = 0).length = 1 := by
  decide

/-- C7, as the code has it: for each of the ten scalar-field flags the selected
function queries the field of the flag's name (the payload compressor for
`--compressor`), and what the run writes to `stdout` is fixed by the result of
the query: for a string, empty or not, the string and one newline; for `NULL`,
nothing.  The exit status is 0. -/
theorem scalar_output_of_query (L : Rpmlib) (prog flag path : String) (fd : FD)
    (hdr : Header) (hflag : flag ∈ scalarFlags) (hopen : L.Fopen path = some fd)
    (herr : fd.Ferror = false) (hread : L.rpmReadPackageFile fd path = some hdr) :
    scalarFlags.map (fun flag => fieldFormat (field flag)) =
      ["%\x7barch\x7d", "%\x7bpayloadcompressor\x7d", "%\x7bdescription\x7d",
       "%\x7bdistribution\x7d", "%\x7blicense\x7d", "%\x7bname\x7d", "%\x7brelease\x7d",
       "%\x7bsummary\x7d", "%\x7burl\x7d", "%\x7bversion\x7d"] ∧
    ∃ f, selected flag = some f ∧
      f.call L.sense hdr = generic_print_msg hdr (fieldFormat (field flag)) ∧
      main L [prog, flag, path] =
        some ⟨0,
          (match hdr.headerSprintf (fieldFormat (field flag)) with
           | some value => value ++ "\n"
           | none => ""),
          "", fullTrace path f⟩ := by
  refine ⟨by decide, ?_⟩
  obtain ⟨f, hf, hmain⟩ :=
    main_dispatch L prog flag path fd hdr (scalarFlags_subset flag hflag) hopen herr hread
  have hcall := selected_scalar L.sense hdr flag f hflag hf
  refine ⟨f, hf, hcall, ?_⟩
  rw [hmain, hcall]
  rfl

theorem scalar_output_of_query_witness :
    main (oneFile "examplepkg.rpm" examplepkg) ["rpminfo", "--name", "examplepkg.rpm"] =
      some ⟨0, "examplepkg\n", "", fullTrace "examplepkg.rpm" .print_name⟩ := by
  obtain ⟨f, hf, -, hmain⟩ :=
    (scalar_output_of_query (oneFile "examplepkg.rpm" examplepkg) "rpminfo" "--name"
      "examplepkg.rpm" ⟨false, ""⟩ examplepkg (by decide) (by simp [oneFile]) rfl
      (by simp [oneFile])).2
  have hsel : selected "--name" = some .print_name := by decide
  rw [hsel] at hf
  cases hf
  rw [hmain]
  decide

/-- C7 as stated fails for an empty result: when `headerSprintf` returns the
empty string, `--name` writes a newline, not nothing. -/
theorem empty_result_prints_newline :
    blankFields.headerSprintf (fieldFormat (field "--name")) = some "" ∧
    main (oneFile "blank.rpm" blankFields) ["rpminfo", "--name", "blank.rpm"] =
      some ⟨0, "\n", "", fullTrace "blank.rpm" .print_name⟩ ∧
    ("\n" : String) ≠ "" := by
  decide

/-- C10, as the code has it: `print_filenames` writes the paths in the order of
the sequence, each followed by a newline, and nothing for an empty sequence; the
number of lines written is the number of entries plus the number of newline
characters in the paths, so it is the number of entries when no path has a
newline character in it. -/
theorem print_filenames_lines (hdr : Header) :
    print_filenames hdr = concat (hdr.basenames.map fun name => name ++ "\n") ∧
    (hdr.basenames = [] → print_filenames hdr = "") ∧
    lineCount (print_filenames hdr) =
      hdr.basenames.length + (hdr.basenames.map lineCount).sum ∧
    ((∀ name ∈ hdr.basenames, noNewline name) →
      lineCount (print_filenames hdr) = hdr.basenames.length) := by
  refine ⟨print_filenames_loop_eq _, ?_, lineCount_print_filenames_loop _, ?_⟩
  · intro h
    simp [print_filenames, h, print_filenames_loop]
  · intro h
    unfold print_filenames
    rw [lineCount_print_filenames_loop, sum_lineCount_of_noNewline _ h]
    rfl

theorem print_filenames_lines_witness :
    lineCount (print_filenames (payload [] ["/usr/bin/tool", "/etc/tool.conf"])) = 2 :=
  (print_filenames_lines (payload [] ["/usr/bin/tool", "/etc/tool.conf"])).2.2.2
    (by decide)

/-- C10 as stated fails for a path with a newline character in it: one file
entry, two lines. -/
theorem file_name_of_two_lines :
    print_filenames (payload [] ["/tmp/odd\nname"]) = "/tmp/odd\nname\n" ∧
    lineCount (print_filenames (payload [] ["/tmp/odd\nname"])) = 2 ∧
    (payload [] ["/tmp/odd\nname"]).basenames.length = 1 := by
  decide

end Rpminfo
